import Mathlib

/-!
Verification of the setback-compliance core of the PoC-stralto service
(src/index.js): the entity classifier inside validateDxfFile, the
distance metric calculateDistance, and the evaluator checkSetbackDistance.

JavaScript numbers are modelled as real numbers. The message strings
produced by checkSetbackDistance are modelled by the inductive type
Message: the compliant branch interpolates one computed distance into an
otherwise fixed template, the non-compliant branch is one fixed string,
so a verdict's message content is fully determined by which constructor
it is and the interpolated distance.

For entities with malformed or missing numeric fields (which in
JavaScript produce NaN arithmetic), a second model JsEntity with
Option-valued fields is given: none stands for NaN/undefined, every
arithmetic operation propagates none, and a comparison against none is
false, exactly as NaN behaves in JavaScript.
-/

namespace Stralto

/-- A drawing entity as consumed by the core: a layer label, a centre
position (x, y) and extents (width, height), all numeric. -/
structure Entity where
  layer : String
  x : ℝ
  y : ℝ
  width : ℝ
  height : ℝ

/-- src/index.js line 118: `const MIN_SETBACK_DISTANCE = 10;` -/
def MIN_SETBACK_DISTANCE : ℝ := 10

/-- src/index.js line 112: the local `xDist` of calculateDistance:
`Math.max(0, Math.abs(entity1.x - entity2.x) - (entity1.width / 2 + entity2.width / 2))`. -/
noncomputable def xDist (entity1 entity2 : Entity) : ℝ :=
  max 0 (|entity1.x - entity2.x| - (entity1.width / 2 + entity2.width / 2))

/-- src/index.js line 113: the local `yDist` of calculateDistance:
`Math.max(0, Math.abs(entity1.y - entity2.y) - (entity1.height / 2 + entity2.height / 2))`. -/
noncomputable def yDist (entity1 entity2 : Entity) : ℝ :=
  max 0 (|entity1.y - entity2.y| - (entity1.height / 2 + entity2.height / 2))

/-- src/index.js lines 111-115, function calculateDistance:
`Math.sqrt(xDist ** 2 + yDist ** 2)`. -/
noncomputable def calculateDistance (entity1 entity2 : Entity) : ℝ :=
  Real.sqrt (xDist entity1 entity2 ^ 2 + yDist entity1 entity2 ^ 2)

/-- The message of a verdict. `compliantMsg d` stands for the template
string "Building is d feet away from boundary on one side." with the
computed distance d interpolated (src/index.js line 128); `nonCompliantMsg`
stands for the fixed string "Building does not meet the 10-ft setback
requirement on any side." (line 136). -/
inductive Message (α : Type) where
  | compliantMsg (distance : α)
  | nonCompliantMsg
deriving DecidableEq

/-- The object literal returned by checkSetbackDistance:
`{ compliant, message }`. -/
structure Verdict (α : Type) where
  compliant : Bool
  message : Message α

/-- src/index.js lines 122-131: the inner `for (let boundary of boundaries)`
loop of checkSetbackDistance, run for one fixed building. `some d` models
the early `return` with computed distance d; `none` models falling through. -/
noncomputable def checkBoundaries (building : Entity) : List Entity → Option ℝ
  | [] => none
  | boundary :: rest =>
    let distance := calculateDistance building boundary
    if distance ≥ MIN_SETBACK_DISTANCE then some distance
    else checkBoundaries building rest

/-- src/index.js lines 121-132: the outer `for (let building of buildings)`
loop of checkSetbackDistance. `some d` models the early `return` from the
nested loops with computed distance d. -/
noncomputable def checkSetbackLoop : List Entity → List Entity → Option ℝ
  | [], _ => none
  | building :: rest, boundaries =>
    match checkBoundaries building boundaries with
    | some d => some d
    | none => checkSetbackLoop rest boundaries

/-- src/index.js lines 120-138, function checkSetbackDistance: returns the
compliant verdict quoting the distance at the first early return, and the
fixed non-compliant verdict when both loops complete. -/
noncomputable def checkSetbackDistance (buildings boundaries : List Entity) :
    Verdict ℝ :=
  match checkSetbackLoop buildings boundaries with
  | some distance => { compliant := true, message := .compliantMsg distance }
  | none => { compliant := false, message := .nonCompliantMsg }

/-- src/index.js lines 91-97, the classifier loop of validateDxfFile:
`entities.forEach(...)` pushing onto `buildings` when
`entity.layer === 'BUILDING'` and onto `boundaries` when
`entity.layer === 'BOUNDARY'`. Modelled as a left fold appending at the
end, exactly like `push`. -/
def classifyStep (acc : List Entity × List Entity) (entity : Entity) :
    List Entity × List Entity :=
  if entity.layer == "BUILDING" then (acc.1 ++ [entity], acc.2)
  else if entity.layer == "BOUNDARY" then (acc.1, acc.2 ++ [entity])
  else acc

/-- The classifier: fold classifyStep over the entity list starting from
two empty arrays, exactly as the forEach does. -/
def classify (entities : List Entity) : List Entity × List Entity :=
  entities.foldl classifyStep ([], [])

/-! ## Model with possibly malformed numeric fields

JsEntity has Option-valued numeric fields: `none` stands for a missing
field (JavaScript `undefined`) or any non-numeric value, whose arithmetic
yields NaN. The js-prefixed operations propagate `none` exactly as the
corresponding JavaScript operations propagate NaN, and `jsGe none t` is
false, as every comparison against NaN is. -/

/-- A drawing entity whose numeric fields may be malformed or missing. -/
structure JsEntity where
  layer : String
  x : Option ℝ
  y : Option ℝ
  width : Option ℝ
  height : Option ℝ

/-- Subtraction: NaN when either operand is NaN. -/
noncomputable def jsSub : Option ℝ → Option ℝ → Option ℝ
  | some a, some b => some (a - b)
  | _, _ => none

/-- Addition: NaN when either operand is NaN. -/
noncomputable def jsAdd : Option ℝ → Option ℝ → Option ℝ
  | some a, some b => some (a + b)
  | _, _ => none

/-- `Math.abs`: NaN on NaN. -/
noncomputable def jsAbs : Option ℝ → Option ℝ := Option.map abs

/-- Halving (`v / 2`): NaN on NaN. -/
noncomputable def jsHalf : Option ℝ → Option ℝ := Option.map (· / 2)

/-- `Math.max(0, v)`: NaN when v is NaN. -/
noncomputable def jsMax0 : Option ℝ → Option ℝ := Option.map (max 0)

/-- Squaring (`v ** 2`): NaN on NaN. -/
noncomputable def jsSq : Option ℝ → Option ℝ := Option.map (· ^ 2)

/-- `Math.sqrt`: NaN on NaN. (The argument in calculateDistance is a sum
of squares, hence never a negative number.) -/
noncomputable def jsSqrt : Option ℝ → Option ℝ := Option.map Real.sqrt

/-- The comparison `d >= t`: false when d is NaN. -/
noncomputable def jsGe (d : Option ℝ) (t : ℝ) : Bool :=
  match d with
  | some v => decide (v ≥ t)
  | none => false

/-- src/index.js lines 111-115, calculateDistance, over entities whose
numeric fields may be malformed: the same computation as calculateDistance
with every operation propagating NaN. -/
noncomputable def calculateDistanceJs (entity1 entity2 : JsEntity) : Option ℝ :=
  let xd := jsMax0 (jsSub (jsAbs (jsSub entity1.x entity2.x))
    (jsAdd (jsHalf entity1.width) (jsHalf entity2.width)))
  let yd := jsMax0 (jsSub (jsAbs (jsSub entity1.y entity2.y))
    (jsAdd (jsHalf entity1.height) (jsHalf entity2.height)))
  jsSqrt (jsAdd (jsSq xd) (jsSq yd))

/-- The inner boundary loop of checkSetbackDistance over possibly
malformed entities; the guard `distance >= MIN_SETBACK_DISTANCE` is the
NaN-aware jsGe. -/
noncomputable def checkBoundariesJs (building : JsEntity) :
    List JsEntity → Option (Option ℝ)
  | [] => none
  | boundary :: rest =>
    let distance := calculateDistanceJs building boundary
    if jsGe distance MIN_SETBACK_DISTANCE then some distance
    else checkBoundariesJs building rest

/-- The outer building loop of checkSetbackDistance over possibly
malformed entities. -/
noncomputable def checkSetbackLoopJs :
    List JsEntity → List JsEntity → Option (Option ℝ)
  | [], _ => none
  | building :: rest, boundaries =>
    match checkBoundariesJs building boundaries with
    | some d => some d
    | none => checkSetbackLoopJs rest boundaries

/-- src/index.js lines 120-138, checkSetbackDistance, over possibly
malformed entities. -/
noncomputable def checkSetbackDistanceJs
    (buildings boundaries : List JsEntity) : Verdict (Option ℝ) :=
  match checkSetbackLoopJs buildings boundaries with
  | some distance => { compliant := true, message := .compliantMsg distance }
  | none => { compliant := false, message := .nonCompliantMsg }

/-- A JsEntity is well-formed when all four numeric fields are present
numbers. -/
def JsEntity.wellFormed (e : JsEntity) : Bool :=
  e.x.isSome && e.y.isSome && e.width.isSome && e.height.isSome

/-! ## Spec-side definitions

These follow the wording of the specification, to be compared with the
definitions above translated from the source. -/

/-- Spec §4.3: the building-boundary pairs "in the order (outer: buildings,
inner: boundaries, both in their given sequence order)". -/
def entityPairs (buildings boundaries : List Entity) : List (Entity × Entity) :=
  buildings.flatMap (fun b => boundaries.map (fun bd => (b, bd)))

/-- Spec §4.3: "the first pair whose distance is ≥ threshold" in the
iteration order of entityPairs. -/
noncomputable def specFirstQualifying (buildings boundaries : List Entity) :
    Option (Entity × Entity) :=
  (entityPairs buildings boundaries).find?
    (fun p => decide (calculateDistance p.1 p.2 ≥ MIN_SETBACK_DISTANCE))

/-- Spec §4.2: `axisGap(a, b, dimA, dimB) = max(0, |a.pos − b.pos| − (dimA/2 + dimB/2))`. -/
noncomputable def spec_axisGap (aPos bPos dimA dimB : ℝ) : ℝ :=
  max 0 (|aPos - bPos| - (dimA / 2 + dimB / 2))

/-- Spec §4.2: `distance = sqrt(xGap² + yGap²)` with axisGap "applied
separately to the x-axis (using width) and y-axis (using height)". -/
noncomputable def spec_distance (a b : Entity) : ℝ :=
  Real.sqrt (spec_axisGap a.x b.x a.width b.width ^ 2 +
    spec_axisGap a.y b.y a.height b.height ^ 2)

/-! ## Helper lemmas -/

lemma checkBoundaries_eq_find (building : Entity) (boundaries : List Entity) :
    checkBoundaries building boundaries =
      (boundaries.find? (fun bd =>
        decide (calculateDistance building bd ≥ MIN_SETBACK_DISTANCE))).map
        (fun bd => calculateDistance building bd) := by
  induction boundaries with
  | nil => rfl
  | cons bd rest ih =>
    by_cases h : calculateDistance building bd ≥ MIN_SETBACK_DISTANCE
    · simp [checkBoundaries, h]
    · simp [checkBoundaries, h, ih]

lemma checkSetbackLoop_eq (buildings boundaries : List Entity) :
    checkSetbackLoop buildings boundaries =
      (specFirstQualifying buildings boundaries).map
        (fun p => calculateDistance p.1 p.2) := by
  induction buildings with
  | nil => rfl
  | cons b rest ih =>
    have hmap : (boundaries.map (fun bd => (b, bd))).find?
        (fun p => decide (calculateDistance p.1 p.2 ≥ MIN_SETBACK_DISTANCE)) =
        (boundaries.find? (fun bd =>
          decide (calculateDistance b bd ≥ MIN_SETBACK_DISTANCE))).map
          (fun bd => (b, bd)) := by
      rw [List.find?_map]; rfl
    simp only [checkSetbackLoop, checkBoundaries_eq_find, specFirstQualifying,
      entityPairs, List.flatMap_cons, List.find?_append, hmap]
    cases h : boundaries.find? (fun bd =>
        decide (calculateDistance b bd ≥ MIN_SETBACK_DISTANCE)) with
    | none =>
      simpa only [Option.map_none, Option.none_or, specFirstQualifying,
        entityPairs] using ih
    | some bd => rfl

lemma checkSetbackDistance_eq (buildings boundaries : List Entity) :
    checkSetbackDistance buildings boundaries =
      (match specFirstQualifying buildings boundaries with
       | some p => ⟨true, .compliantMsg (calculateDistance p.1 p.2)⟩
       | none => ⟨false, .nonCompliantMsg⟩) := by
  unfold checkSetbackDistance
  rw [checkSetbackLoop_eq]
  cases specFirstQualifying buildings boundaries <;> rfl

lemma specFirstQualifying_isSome (buildings boundaries : List Entity) :
    (specFirstQualifying buildings boundaries).isSome ↔
      ∃ b ∈ buildings, ∃ bd ∈ boundaries,
        calculateDistance b bd ≥ MIN_SETBACK_DISTANCE := by
  constructor
  · intro h
    rw [specFirstQualifying, List.find?_isSome] at h
    obtain ⟨p, hp, hq⟩ := h
    rw [entityPairs, List.mem_flatMap] at hp
    obtain ⟨b, hb, hpm⟩ := hp
    rw [List.mem_map] at hpm
    obtain ⟨bd, hbd, rfl⟩ := hpm
    exact ⟨b, hb, bd, hbd, by simpa using hq⟩
  · intro ⟨b, hb, bd, hbd, hq⟩
    rw [specFirstQualifying, List.find?_isSome]
    refine ⟨(b, bd), ?_, by simpa using hq⟩
    rw [entityPairs, List.mem_flatMap]
    exact ⟨b, hb, List.mem_map.mpr ⟨bd, hbd, rfl⟩⟩

lemma specFirstQualifying_qualifies {buildings boundaries : List Entity}
    {p : Entity × Entity}
    (h : specFirstQualifying buildings boundaries = some p) :
    calculateDistance p.1 p.2 ≥ MIN_SETBACK_DISTANCE := by
  have := List.find?_some h
  simpa using this

/-! ## Claims -/

/-- C1: the evaluator returns compliant = true iff some (building,
boundary) pair has distance ≥ the threshold 10, and its whole verdict is
determined by the first qualifying pair in the order buildings-outer,
boundaries-inner: when one exists the verdict is compliant and quotes
that pair's computed distance, otherwise it is the fixed non-compliant
verdict. -/
theorem C1_first_qualifying_pair (buildings boundaries : List Entity) :
    ((checkSetbackDistance buildings boundaries).compliant = true ↔
      ∃ b ∈ buildings, ∃ bd ∈ boundaries,
        calculateDistance b bd ≥ MIN_SETBACK_DISTANCE) ∧
    checkSetbackDistance buildings boundaries =
      (match specFirstQualifying buildings boundaries with
       | some p => ⟨true, .compliantMsg (calculateDistance p.1 p.2)⟩
       | none => ⟨false, .nonCompliantMsg⟩) := by
  refine ⟨?_, checkSetbackDistance_eq buildings boundaries⟩
  rw [checkSetbackDistance_eq, ← specFirstQualifying_isSome]
  cases specFirstQualifying buildings boundaries <;> simp

/-- C4: when no (building, boundary) pair has distance ≥ the threshold —
in particular when either list is empty — the evaluator returns the fixed
non-compliant verdict with no computed distance in the message (and,
being a total function, raises no error). -/
theorem C4_no_qualifying_pair (buildings boundaries : List Entity)
    (h : ∀ b ∈ buildings, ∀ bd ∈ boundaries,
      ¬ calculateDistance b bd ≥ MIN_SETBACK_DISTANCE) :
    checkSetbackDistance buildings boundaries =
      { compliant := false, message := .nonCompliantMsg } := by
  rw [checkSetbackDistance_eq]
  have hnone : specFirstQualifying buildings boundaries = none := by
    rw [specFirstQualifying, List.find?_eq_none]
    intro p hp
    rw [entityPairs, List.mem_flatMap] at hp
    obtain ⟨b, hb, hpm⟩ := hp
    rw [List.mem_map] at hpm
    obtain ⟨bd, hbd, rfl⟩ := hpm
    simpa using h b hb bd hbd
  rw [hnone]

/-- Witness for C4: an empty buildings list against one boundary yields
the fixed non-compliant verdict. -/
theorem C4_no_qualifying_pair_witness :
    checkSetbackDistance [] [⟨"BOUNDARY", 0, 0, 2, 2⟩] =
      { compliant := false, message := .nonCompliantMsg } :=
  C4_no_qualifying_pair [] [⟨"BOUNDARY", 0, 0, 2, 2⟩] (by simp)

/-- C10: invariant of every verdict: when compliant = true the message
quotes exactly the distance of the first qualifying pair in iteration
order and that distance is ≥ the threshold 10; when compliant = false the
message is the fixed non-compliant string. -/
theorem C10_verdict_invariant (buildings boundaries : List Entity) :
    ((checkSetbackDistance buildings boundaries).compliant = true →
      ∃ p, specFirstQualifying buildings boundaries = some p ∧
        (checkSetbackDistance buildings boundaries).message =
          .compliantMsg (calculateDistance p.1 p.2) ∧
        calculateDistance p.1 p.2 ≥ MIN_SETBACK_DISTANCE) ∧
    ((checkSetbackDistance buildings boundaries).compliant = false →
      (checkSetbackDistance buildings boundaries).message =
        .nonCompliantMsg) := by
  rw [checkSetbackDistance_eq]
  cases h : specFirstQualifying buildings boundaries with
  | none => exact ⟨by simp, by simp⟩
  | some p =>
    refine ⟨fun _ => ⟨p, rfl, rfl, specFirstQualifying_qualifies h⟩, by simp⟩

/-- Witness for C10: on empty inputs the verdict is non-compliant and its
message is the fixed string. -/
theorem C10_verdict_invariant_witness :
    (checkSetbackDistance ([] : List Entity) []).message =
      Message.nonCompliantMsg :=
  (C10_verdict_invariant [] []).2 (by rw [checkSetbackDistance_eq]; rfl)

lemma xDist_eq_zero_of_overlap {a b : Entity}
    (h : |a.x - b.x| ≤ a.width / 2 + b.width / 2) : xDist a b = 0 :=
  max_eq_left (sub_nonpos.mpr h)

lemma yDist_eq_zero_of_overlap {a b : Entity}
    (h : |a.y - b.y| ≤ a.height / 2 + b.height / 2) : yDist a b = 0 :=
  max_eq_left (sub_nonpos.mpr h)

lemma calculateDistance_eq_zero_of_overlap {a b : Entity}
    (hx : |a.x - b.x| ≤ a.width / 2 + b.width / 2)
    (hy : |a.y - b.y| ≤ a.height / 2 + b.height / 2) :
    calculateDistance a b = 0 := by
  unfold calculateDistance
  rw [xDist_eq_zero_of_overlap hx, yDist_eq_zero_of_overlap hy]
  simp

/-- C2: the distance between two entities is computed per axis as
`max(0, |Δpos| - (dimA/2 + dimB/2))` — width on the x-axis, height on the
y-axis — and combined as `sqrt(xGap² + yGap²)`: the source computation
coincides with the spec formula. -/
theorem C2_distance_formula (a b : Entity) :
    xDist a b = spec_axisGap a.x b.x a.width b.width ∧
    yDist a b = spec_axisGap a.y b.y a.height b.height ∧
    calculateDistance a b = spec_distance a b :=
  ⟨rfl, rfl, rfl⟩

/-- C6: the distance is always ≥ 0, and so are both clamped axis gaps and
the sum of squares fed to sqrt, so no negative intermediate value
arises. -/
theorem C6_distance_nonneg (a b : Entity) :
    0 ≤ calculateDistance a b ∧ 0 ≤ xDist a b ∧ 0 ≤ yDist a b ∧
    0 ≤ xDist a b ^ 2 + yDist a b ^ 2 :=
  ⟨Real.sqrt_nonneg _, le_max_left 0 _, le_max_left 0 _, by positivity⟩

/-- Counterexample to C7 as stated: for an entity with a negative width,
the self-distance is not 0 (here it is 2): the claim's "for every entity
e, distance(e, e) = 0" fails without a nonnegativity assumption on the
extents. -/
theorem C7_counterexample :
    calculateDistance ⟨"BUILDING", 0, 0, -2, 0⟩ ⟨"BUILDING", 0, 0, -2, 0⟩
      ≠ 0 := by
  have hx : xDist ⟨"BUILDING", 0, 0, -2, 0⟩ ⟨"BUILDING", 0, 0, -2, 0⟩ = 2 := by
    unfold xDist
    norm_num
  have hy : yDist ⟨"BUILDING", 0, 0, -2, 0⟩ ⟨"BUILDING", 0, 0, -2, 0⟩ = 0 := by
    unfold yDist
    norm_num
  unfold calculateDistance
  rw [hx, hy, Real.sqrt_ne_zero']
  norm_num

/-- C7 (amended): whenever the bounding rectangles overlap on an axis —
`|Δpos| ≤` the sum of half-extents — that axis's gap is exactly 0; when
they overlap on both axes the distance is exactly 0; and for every entity
with nonnegative width and height, the distance to itself is 0. -/
theorem C7_overlap_zero (a b : Entity) :
    (|a.x - b.x| ≤ a.width / 2 + b.width / 2 → xDist a b = 0) ∧
    (|a.y - b.y| ≤ a.height / 2 + b.height / 2 → yDist a b = 0) ∧
    (|a.x - b.x| ≤ a.width / 2 + b.width / 2 →
      |a.y - b.y| ≤ a.height / 2 + b.height / 2 →
      calculateDistance a b = 0) ∧
    (∀ e : Entity, 0 ≤ e.width → 0 ≤ e.height → calculateDistance e e = 0) := by
  refine ⟨xDist_eq_zero_of_overlap, yDist_eq_zero_of_overlap,
    calculateDistance_eq_zero_of_overlap, fun e hw hh => ?_⟩
  apply calculateDistance_eq_zero_of_overlap <;> simp <;> positivity

/-- Witness for C7: two overlapping unit squares at the origin have
distance 0, and a 4-by-6 entity has self-distance 0. -/
theorem C7_overlap_zero_witness :
    calculateDistance ⟨"BUILDING", 0, 0, 1, 1⟩ ⟨"BOUNDARY", 0, 0, 1, 1⟩ = 0 ∧
    calculateDistance ⟨"BUILDING", 1, 2, 4, 6⟩ ⟨"BUILDING", 1, 2, 4, 6⟩ = 0 :=
  ⟨(C7_overlap_zero ⟨"BUILDING", 0, 0, 1, 1⟩ ⟨"BOUNDARY", 0, 0, 1, 1⟩).2.2.1
      (by norm_num) (by norm_num),
    (C7_overlap_zero ⟨"BUILDING", 0, 0, 1, 1⟩ ⟨"BOUNDARY", 0, 0, 1, 1⟩).2.2.2
      ⟨"BUILDING", 1, 2, 4, 6⟩ (by norm_num) (by norm_num)⟩

/-- C8: the distance function is symmetric in its two entities. -/
theorem C8_distance_symmetric (a b : Entity) :
    calculateDistance a b = calculateDistance b a := by
  unfold calculateDistance xDist yDist
  rw [abs_sub_comm a.x b.x, abs_sub_comm a.y b.y,
    add_comm (a.width / 2) (b.width / 2),
    add_comm (a.height / 2) (b.height / 2)]

/-- C9, Scenario A: one building centred at (0,0) of size 4×4 and one
boundary centred at (20,0) of size 2×2 give an x gap of 17, a y gap of 0
and a distance of 17, so the evaluator is compliant and its message
quotes 17. -/
theorem C9_scenario_A :
    xDist ⟨"BUILDING", 0, 0, 4, 4⟩ ⟨"BOUNDARY", 20, 0, 2, 2⟩ = 17 ∧
    yDist ⟨"BUILDING", 0, 0, 4, 4⟩ ⟨"BOUNDARY", 20, 0, 2, 2⟩ = 0 ∧
    calculateDistance ⟨"BUILDING", 0, 0, 4, 4⟩ ⟨"BOUNDARY", 20, 0, 2, 2⟩ = 17 ∧
    checkSetbackDistance [⟨"BUILDING", 0, 0, 4, 4⟩] [⟨"BOUNDARY", 20, 0, 2, 2⟩]
      = ⟨true, .compliantMsg 17⟩ := by
  have hx : xDist ⟨"BUILDING", 0, 0, 4, 4⟩ ⟨"BOUNDARY", 20, 0, 2, 2⟩ = 17 := by
    unfold xDist
    norm_num
  have hy : yDist ⟨"BUILDING", 0, 0, 4, 4⟩ ⟨"BOUNDARY", 20, 0, 2, 2⟩ = 0 := by
    unfold yDist
    norm_num
  have hd : calculateDistance ⟨"BUILDING", 0, 0, 4, 4⟩
      ⟨"BOUNDARY", 20, 0, 2, 2⟩ = 17 := by
    unfold calculateDistance
    rw [hx, hy, show (17 : ℝ) ^ 2 + 0 ^ 2 = 17 ^ 2 by norm_num,
      Real.sqrt_sq (by norm_num : (0 : ℝ) ≤ 17)]
  refine ⟨hx, hy, hd, ?_⟩
  simp only [checkSetbackDistance, checkSetbackLoop, checkBoundaries, hd]
  norm_num [MIN_SETBACK_DISTANCE]

lemma classify_foldl (entities : List Entity) (acc : List Entity × List Entity) :
    entities.foldl classifyStep acc =
      (acc.1 ++ entities.filter (fun e => e.layer == "BUILDING"),
       acc.2 ++ entities.filter (fun e => e.layer == "BOUNDARY")) := by
  induction entities generalizing acc with
  | nil => simp
  | cons e rest ih =>
    rw [List.foldl_cons, ih]
    by_cases h1 : e.layer = "BUILDING"
    · simp [classifyStep, h1, List.filter_cons]
    · by_cases h2 : e.layer = "BOUNDARY"
      · simp [classifyStep, h1, h2, List.filter_cons]
      · simp [classifyStep, h1, h2, List.filter_cons]

lemma classify_eq (entities : List Entity) :
    classify entities =
      (entities.filter (fun e => e.layer == "BUILDING"),
       entities.filter (fun e => e.layer == "BOUNDARY")) := by
  rw [classify, classify_foldl]
  simp

lemma classify_length_partition (entities : List Entity) :
    (entities.filter (fun e => e.layer == "BUILDING")).length +
      (entities.filter (fun e => e.layer == "BOUNDARY")).length +
      (entities.filter (fun e =>
        !(e.layer == "BUILDING") && !(e.layer == "BOUNDARY"))).length =
      entities.length := by
  induction entities with
  | nil => rfl
  | cons e rest ih =>
    by_cases h1 : e.layer = "BUILDING"
    · simp [List.filter_cons, h1]
      omega
    · by_cases h2 : e.layer = "BOUNDARY"
      · simp [List.filter_cons, h1, h2]
        omega
      · simp [List.filter_cons, h1, h2]
        omega

/-- C3: the classifier returns exactly the entities whose layer is the
string BUILDING as buildings and exactly those whose layer is BOUNDARY as
boundaries, each preserving the input's relative order (they are ordered
sublists of the input); the remaining entities are dropped, so the three
group sizes sum to the input length, and the empty input yields two empty
lists. -/
theorem C3_classifier (entities : List Entity) :
    (classify entities).1 = entities.filter (fun e => e.layer == "BUILDING") ∧
    (classify entities).2 = entities.filter (fun e => e.layer == "BOUNDARY") ∧
    ((classify entities).1).Sublist entities ∧
    ((classify entities).2).Sublist entities ∧
    (classify entities).1.length + (classify entities).2.length +
      (entities.filter (fun e =>
        !(e.layer == "BUILDING") && !(e.layer == "BOUNDARY"))).length =
      entities.length ∧
    classify ([] : List Entity) = ([], []) := by
  rw [classify_eq]
  exact ⟨rfl, rfl, List.filter_sublist _, List.filter_sublist _,
    classify_length_partition entities, rfl⟩

lemma jsSub_none_left (b : Option ℝ) : jsSub none b = none := by
  cases b <;> rfl

lemma jsSub_none_right (a : Option ℝ) : jsSub a none = none := by
  cases a <;> rfl

lemma jsAdd_none_left (b : Option ℝ) : jsAdd none b = none := by
  cases b <;> rfl

lemma jsAdd_none_right (a : Option ℝ) : jsAdd a none = none := by
  cases a <;> rfl

lemma wellFormed_false_iff (e : JsEntity) :
    e.wellFormed = false ↔
      e.x = none ∨ e.y = none ∨ e.width = none ∨ e.height = none := by
  cases hx : e.x <;> cases hy : e.y <;> cases hw : e.width <;>
    cases hh : e.height <;> simp [JsEntity.wellFormed, hx, hy, hw, hh]

lemma calculateDistanceJs_none {e1 e2 : JsEntity}
    (h : e1.wellFormed = false ∨ e2.wellFormed = false) :
    calculateDistanceJs e1 e2 = none := by
  rcases h with h | h <;> rw [wellFormed_false_iff] at h <;>
    rcases h with h | h | h | h <;>
    simp [calculateDistanceJs, h, jsSub_none_left, jsSub_none_right,
      jsAdd_none_left, jsAdd_none_right, jsAbs, jsHalf, jsMax0, jsSq, jsSqrt]

lemma checkBoundariesJs_none (building : JsEntity)
    (boundaries : List JsEntity)
    (h : ∀ bd ∈ boundaries,
      jsGe (calculateDistanceJs building bd) MIN_SETBACK_DISTANCE = false) :
    checkBoundariesJs building boundaries = none := by
  induction boundaries with
  | nil => rfl
  | cons bd rest ih =>
    rw [checkBoundariesJs]
    simp only [h bd (List.mem_cons_self bd rest), Bool.false_eq_true,
      if_false]
    exact ih fun bd' hbd' => h bd' (List.mem_cons_of_mem bd hbd')

lemma checkSetbackLoopJs_none (buildings boundaries : List JsEntity)
    (h : ∀ b ∈ buildings, ∀ bd ∈ boundaries,
      jsGe (calculateDistanceJs b bd) MIN_SETBACK_DISTANCE = false) :
    checkSetbackLoopJs buildings boundaries = none := by
  induction buildings with
  | nil => rfl
  | cons b rest ih =>
    rw [checkSetbackLoopJs,
      checkBoundariesJs_none b boundaries (h b (List.mem_cons_self b rest))]
    exact ih fun b' hb' => h b' (List.mem_cons_of_mem b hb')

/-- C5: over lists in which every (building, boundary) pair involves an
entity with a malformed or missing numeric field, every computed distance
is NaN (none), NaN fails the ≥ 10 comparison, and the evaluator returns
the ordinary fixed non-compliant verdict rather than a distinct error. -/
theorem C5_malformed_folded (buildings boundaries : List JsEntity)
    (h : ∀ b ∈ buildings, ∀ bd ∈ boundaries,
      b.wellFormed = false ∨ bd.wellFormed = false) :
    (∀ b ∈ buildings, ∀ bd ∈ boundaries,
      calculateDistanceJs b bd = none ∧
      jsGe (calculateDistanceJs b bd) MIN_SETBACK_DISTANCE = false) ∧
    checkSetbackDistanceJs buildings boundaries =
      ⟨false, .nonCompliantMsg⟩ := by
  have hdist : ∀ b ∈ buildings, ∀ bd ∈ boundaries,
      calculateDistanceJs b bd = none := fun b hb bd hbd =>
    calculateDistanceJs_none (h b hb bd hbd)
  have hge : ∀ b ∈ buildings, ∀ bd ∈ boundaries,
      jsGe (calculateDistanceJs b bd) MIN_SETBACK_DISTANCE = false := by
    intro b hb bd hbd
    rw [hdist b hb bd hbd]
    rfl
  refine ⟨fun b hb bd hbd => ⟨hdist b hb bd hbd, hge b hb bd hbd⟩, ?_⟩
  rw [checkSetbackDistanceJs, checkSetbackLoopJs_none buildings boundaries hge]

/-- Witness for C5: a building whose x coordinate is missing, against one
well-formed boundary, yields the fixed non-compliant verdict. -/
theorem C5_malformed_folded_witness :
    checkSetbackDistanceJs [⟨"BUILDING", none, some 0, some 2, some 2⟩]
      [⟨"BOUNDARY", some 0, some 0, some 2, some 2⟩] =
      ⟨false, .nonCompliantMsg⟩ :=
  (C5_malformed_folded [⟨"BUILDING", none, some 0, some 2, some 2⟩]
    [⟨"BOUNDARY", some 0, some 0, some 2, some 2⟩]
    (by simp [JsEntity.wellFormed])).2

end Stralto
